import Mathlib

/-!
# Verification of the finance_pulse technical-indicator core (`utils.py`)

Shallow embedding of the numeric core of `src/utils.py`:
`calculate_technical_indicators`, `create_price_chart`, `calculate_metrics`,
and `format_large_number`.

Modelling conventions:
* pandas float columns are modelled by exact rationals; the IEEE special
  values that the code relies on (NaN from `0/0`, ±∞ from `x/0`) are made
  explicit by the `FV` type below with IEEE-754 propagation rules
  (positive zero; a NaN compares false).
* A pandas "missing" (NaN) entry of a warm-up prefix is modelled by
  `Option` (`none` = missing) for rolling columns, and by `FV.nan` where
  infinities can flow through the computation (RSI, metrics).
* The numeric square root used by `Series.rolling(...).std()` / `Series.std()`
  has no computable exact counterpart on rationals, so every definition that
  needs it takes the square-root function as an explicit parameter `sqrt`;
  all claims proved here hold for every choice of that parameter.
* Python's `df['col'] = ...` assigns a column into the caller's DataFrame
  in place; this mutation is modelled by explicit state passing: the frame
  visible to the caller after the call is exactly the returned frame.
-/

set_option linter.unusedVariables false

/-- An IEEE-754-style scalar as pandas sees it: NaN, ±∞, or a finite value
(modelled exactly as a rational). -/
inductive FV where
  | nan : FV
  | pinf : FV
  | ninf : FV
  | fin : ℚ → FV
deriving DecidableEq, Repr

namespace FV

/-- IEEE negation. -/
def neg : FV → FV
  | nan => nan
  | pinf => ninf
  | ninf => pinf
  | fin q => fin (-q)

/-- IEEE addition (NaN propagates; `∞ + (−∞) = NaN`). -/
def add : FV → FV → FV
  | nan, _ => nan
  | _, nan => nan
  | pinf, ninf => nan
  | ninf, pinf => nan
  | pinf, _ => pinf
  | _, pinf => pinf
  | ninf, _ => ninf
  | _, ninf => ninf
  | fin a, fin b => fin (a + b)

/-- IEEE subtraction. -/
def sub (a b : FV) : FV := add a (neg b)

/-- IEEE multiplication (`∞ · 0 = NaN`). -/
def mul : FV → FV → FV
  | nan, _ => nan
  | _, nan => nan
  | pinf, pinf => pinf
  | pinf, ninf => ninf
  | ninf, pinf => ninf
  | ninf, ninf => pinf
  | pinf, fin q => if q = 0 then nan else if 0 < q then pinf else ninf
  | fin q, pinf => if q = 0 then nan else if 0 < q then pinf else ninf
  | ninf, fin q => if q = 0 then nan else if 0 < q then ninf else pinf
  | fin q, ninf => if q = 0 then nan else if 0 < q then ninf else pinf
  | fin a, fin b => fin (a * b)

/-- IEEE division with a positive zero (the only zero arising in the
embedded columns): `0/0 = NaN`, `x/0 = ±∞` for `x ≠ 0`, `x/±∞ = 0`. -/
def div : FV → FV → FV
  | nan, _ => nan
  | _, nan => nan
  | pinf, pinf => nan
  | pinf, ninf => nan
  | ninf, pinf => nan
  | ninf, ninf => nan
  | pinf, fin q => if q < 0 then ninf else pinf
  | ninf, fin q => if q < 0 then pinf else ninf
  | fin _, pinf => fin 0
  | fin _, ninf => fin 0
  | fin a, fin b =>
      if b = 0 then (if a = 0 then nan else if 0 < a then pinf else ninf)
      else fin (a / b)

/-- Numeric square root, with the finite-value root abstracted as `sqrt`
(NaN propagates, `√(+∞) = +∞`). -/
def sqrtFV (sqrt : ℚ → ℚ) : FV → FV
  | nan => nan
  | pinf => pinf
  | ninf => nan
  | fin q => fin (sqrt q)

/-- Is this value a NaN?  (pandas reductions skip exactly these.) -/
def isNaN : FV → Bool
  | nan => true
  | _ => false

end FV

/-! ## Rolling windows and the indicator library (`calculate_technical_indicators`) -/

/-- `Series.rolling(window=w).mean()` at position `i` (default
`min_periods = w`): defined once `w` trailing samples exist, the arithmetic
mean of `xs[i+1-w .. i]`; otherwise missing. -/
def rollingMean (w : ℕ) (xs : List ℚ) (i : ℕ) : Option ℚ :=
  if w ≤ i + 1 ∧ i < xs.length then
    some (((xs.drop (i + 1 - w)).take w).sum / (w : ℚ))
  else none

/-- The square of `Series.rolling(window=w).std()` at position `i`: the
trailing sample variance (divisor `w − 1`). -/
def rollingVar (w : ℕ) (xs : List ℚ) (i : ℕ) : Option ℚ :=
  if w ≤ i + 1 ∧ i < xs.length then
    let win := (xs.drop (i + 1 - w)).take w
    let m := win.sum / (w : ℚ)
    some ((win.map (fun x => (x - m) * (x - m))).sum / ((w - 1 : ℕ) : ℚ))
  else none

/-- `delta = df['Close'].diff()`: first entry NaN, then consecutive
differences. -/
def diffFV (xs : List ℚ) : List FV :=
  match xs with
  | [] => []
  | _ :: _ => FV.nan :: (xs.zip xs.tail).map (fun p => FV.fin (p.2 - p.1))

/-- `delta.where(delta > 0, 0)`: keeps `delta[i]` where it is positive, else
0.  A NaN compares false, so the leading NaN of `diff` becomes 0. -/
def gainsOf (xs : List ℚ) : List ℚ :=
  (diffFV xs).map fun d =>
    match d with
    | FV.fin q => if 0 < q then q else 0
    | _ => 0

/-- `(-delta).where(delta < 0, 0)` (written `-delta.where(delta < 0, 0)` in
the source): the magnitude of negative moves, else 0; the leading NaN
becomes 0. -/
def lossesOf (xs : List ℚ) : List ℚ :=
  (diffFV xs).map fun d =>
    match d with
    | FV.fin q => if q < 0 then -q else 0
    | _ => 0

/-- The RSI entry at position `i`:
`rs = gain/loss`, `RSI = 100 - 100/(1 + rs)`, with IEEE propagation when a
rolling mean is still missing (NaN) or `loss = 0` (±∞ / NaN). -/
def rsiAt (xs : List ℚ) (i : ℕ) : FV :=
  match rollingMean 14 (gainsOf xs) i, rollingMean 14 (lossesOf xs) i with
  | some g, some l =>
      FV.sub (FV.fin 100)
        (FV.div (FV.fin 100) (FV.add (FV.fin 1) (FV.div (FV.fin g) (FV.fin l))))
  | _, _ => FV.nan

/-- Tail of `Series.ewm(span, adjust=False).mean()`:
`e[i] = α·x[i] + (1−α)·e[i−1]`. -/
def emaGo (α : ℚ) (prev : ℚ) : List ℚ → List ℚ
  | [] => []
  | x :: rest =>
      let e := α * x + (1 - α) * prev
      e :: emaGo α e rest

/-- `Series.ewm(span=span, adjust=False).mean()`: recursive smoothing with
`α = 2/(span+1)`, seeded by the first sample (the first output equals the
first input). -/
def ema (span : ℕ) (xs : List ℚ) : List ℚ :=
  match xs with
  | [] => []
  | x :: rest => x :: emaGo (2 / ((span : ℚ) + 1)) x rest

/-- The MACD line `EMA12 − EMA26`, pointwise. -/
def macdLine (xs : List ℚ) : List ℚ :=
  List.zipWith (· - ·) (ema 12 xs) (ema 26 xs)

/-- The `BB_upper` entry at position `i`:
`BB_middle + 2 * Close.rolling(20).std()`, missing while either rolling
window is warming up. -/
def bbUpperAt (sqrt : ℚ → ℚ) (xs : List ℚ) (i : ℕ) : Option ℚ :=
  match rollingMean 20 xs i, rollingVar 20 xs i with
  | some m, some v => some (m + 2 * sqrt v)
  | _, _ => none

/-- The `BB_lower` entry at position `i`:
`BB_middle - 2 * Close.rolling(20).std()`. -/
def bbLowerAt (sqrt : ℚ → ℚ) (xs : List ℚ) (i : ℕ) : Option ℚ :=
  match rollingMean 20 xs i, rollingVar 20 xs i with
  | some m, some v => some (m - 2 * sqrt v)
  | _, _ => none

/-- The caller-visible pandas DataFrame: OHLCV columns plus the index the
market-data source delivered, and the (initially absent) indicator columns
that `calculate_technical_indicators` assigns into the same frame. -/
structure DataFrame where
  index : List ℤ
  Open : List ℚ
  High : List ℚ
  Low : List ℚ
  Close : List ℚ
  Volume : List ℚ
  RSI : Option (List FV) := none
  SMA_20 : Option (List (Option ℚ)) := none
  SMA_50 : Option (List (Option ℚ)) := none
  EMA_20 : Option (List ℚ) := none
  BB_middle : Option (List (Option ℚ)) := none
  BB_upper : Option (List (Option ℚ)) := none
  BB_lower : Option (List (Option ℚ)) := none
  MACD : Option (List ℚ) := none
  MACD_Signal : Option (List ℚ) := none
  MACD_Hist : Option (List ℚ) := none
deriving DecidableEq, Repr

/-- `calculate_technical_indicators(df)`: assigns the nine indicator columns
into the frame (Python column assignment mutates the caller's frame; the
result below IS the caller's frame after the call) and returns it.
`sqrt` abstracts the numeric square root used by `.rolling(20).std()`. -/
def calculate_technical_indicators (sqrt : ℚ → ℚ) (df : DataFrame) : DataFrame :=
  let n := df.Close.length
  { df with
    RSI := some ((List.range n).map (rsiAt df.Close))
    SMA_20 := some ((List.range n).map (rollingMean 20 df.Close))
    SMA_50 := some ((List.range n).map (rollingMean 50 df.Close))
    EMA_20 := some (ema 20 df.Close)
    BB_middle := some ((List.range n).map (rollingMean 20 df.Close))
    BB_upper := some ((List.range n).map (bbUpperAt sqrt df.Close))
    BB_lower := some ((List.range n).map (bbLowerAt sqrt df.Close))
    MACD := some (macdLine df.Close)
    MACD_Signal := some (ema 9 (macdLine df.Close))
    MACD_Hist := some (List.zipWith (· - ·) (macdLine df.Close) (ema 9 (macdLine df.Close))) }

/-! ## Chart assembly (`create_price_chart`) -/

/-- The identity of a named trace added by `create_price_chart` (the
`name=` argument of the corresponding plotly trace). -/
inductive TraceName where
  | ohlc | sma20 | sma50 | ema20 | bbUpper | bbMiddle | bbLower
  | volume | rsiLine | macd | macdSignal | macdHist
deriving DecidableEq, Repr

/-- The `name=` string the source passes for each trace. -/
def TraceName.str : TraceName → String
  | ohlc => "OHLC"
  | sma20 => "SMA 20"
  | sma50 => "SMA 50"
  | ema20 => "EMA 20"
  | bbUpper => "BB Upper"
  | bbMiddle => "BB Middle"
  | bbLower => "BB Lower"
  | volume => "Volume"
  | rsiLine => "RSI"
  | macd => "MACD"
  | macdSignal => "Signal"
  | macdHist => "MACD Histogram"

/-- One item of the assembled figure: a trace with its data and subplot row,
or an unnamed horizontal reference line. -/
inductive ChartItem where
  | candlestick (name : TraceName) (index : List ℤ)
      (o h l c : List ℚ) (row : ℕ)
  | scatterQ (name : TraceName) (y : List ℚ) (row : ℕ)
  | scatterOQ (name : TraceName) (y : List (Option ℚ)) (row : ℕ)
  | scatterFV (name : TraceName) (y : List FV) (row : ℕ)
  | bar (name : TraceName) (y : List ℚ) (row : ℕ)
  | hline (y : ℚ) (row : ℕ)
deriving DecidableEq, Repr

/-- The trace name carried by an item (`none` for a reference line). -/
def ChartItem.tag : ChartItem → Option TraceName
  | candlestick n _ _ _ _ _ _ => some n
  | scatterQ n _ _ => some n
  | scatterOQ n _ _ => some n
  | scatterFV n _ _ => some n
  | bar n _ _ => some n
  | hline _ _ => none

/-- The five indicator toggles accepted by `create_price_chart`. -/
structure ShowIndicators where
  sma : Bool
  ema : Bool
  bollinger : Bool
  rsi : Bool
  macd : Bool
deriving DecidableEq, Repr

/-- `create_price_chart(df, show_indicators)` as the ordered list of items
it adds to the figure.  An omitted `show_indicators` (`None`) is replaced by
the all-false default; the frame is first enriched by
`calculate_technical_indicators` (mutating the caller's frame); then the
candlestick, the toggled overlays, the volume bars, RSI with its 70/30
reference lines, and MACD are added in source order (layout-only settings
such as `dark_mode` add no traces and are not modelled). -/
def create_price_chart (sqrt : ℚ → ℚ) (df : DataFrame)
    (show_indicators : Option ShowIndicators) : List ChartItem :=
  let s := show_indicators.getD ⟨false, false, false, false, false⟩
  let d := calculate_technical_indicators sqrt df
  [ChartItem.candlestick .ohlc d.index d.Open d.High d.Low d.Close 1]
  ++ (if s.sma then
        [ChartItem.scatterOQ .sma20 (d.SMA_20.getD []) 1,
         ChartItem.scatterOQ .sma50 (d.SMA_50.getD []) 1] else [])
  ++ (if s.ema then [ChartItem.scatterQ .ema20 (d.EMA_20.getD []) 1] else [])
  ++ (if s.bollinger then
        [ChartItem.scatterOQ .bbUpper (d.BB_upper.getD []) 1,
         ChartItem.scatterOQ .bbMiddle (d.BB_middle.getD []) 1,
         ChartItem.scatterOQ .bbLower (d.BB_lower.getD []) 1] else [])
  ++ [ChartItem.bar .volume d.Volume 2]
  ++ (if s.rsi then
        [ChartItem.scatterFV .rsiLine (d.RSI.getD []) 2,
         ChartItem.hline 70 2, ChartItem.hline 30 2] else [])
  ++ (if s.macd then
        [ChartItem.scatterQ .macd (d.MACD.getD []) 3,
         ChartItem.scatterQ .macdSignal (d.MACD_Signal.getD []) 3,
         ChartItem.bar .macdHist (d.MACD_Hist.getD []) 3] else [])

/-- Membership in the MACD trace group (MACD line, Signal line, Histogram). -/
def isMACDGroup (it : ChartItem) : Bool :=
  match it.tag with
  | some .macd => true
  | some .macdSignal => true
  | some .macdHist => true
  | _ => false

/-- Membership in the RSI trace group: the RSI line or any horizontal
reference line (the only hlines the source adds are RSI's 70/30 lines). -/
def isRSIGroup (it : ChartItem) : Bool :=
  match it with
  | ChartItem.hline _ _ => true
  | _ => it.tag = some .rsiLine

/-- Membership in the SMA trace group. -/
def isSMAGroup (it : ChartItem) : Bool :=
  it.tag = some .sma20 || it.tag = some .sma50

/-- Membership in the EMA trace group. -/
def isEMAGroup (it : ChartItem) : Bool :=
  it.tag = some .ema20

/-- Membership in the Bollinger trace group. -/
def isBollingerGroup (it : ChartItem) : Bool :=
  it.tag = some .bbUpper || it.tag = some .bbMiddle || it.tag = some .bbLower

/-! ## Metrics (`calculate_metrics`) -/

/-- `df['Close'].pct_change()`: first entry NaN, then
`(close[i] − close[i−1]) / close[i−1]` with IEEE semantics (`0/0 = NaN`,
`x/0 = ±∞`). -/
def pctChangeFV (xs : List ℚ) : List FV :=
  match xs with
  | [] => []
  | _ :: _ =>
      FV.nan :: (xs.zip xs.tail).map (fun p => FV.div (FV.fin (p.2 - p.1)) (FV.fin p.1))

/-- Sum of the non-NaN values (pandas reductions skip NaN, but infinities
participate). -/
def sumFV (v : List FV) : FV := v.foldr FV.add (FV.fin 0)

/-- `Series.mean()` (skipna): the mean of the non-NaN entries; NaN when
there are none (`0/0`). -/
def pandasMean (xs : List FV) : FV :=
  FV.div (sumFV (xs.filter (fun a => !a.isNaN)))
    (FV.fin ((xs.filter (fun a => !a.isNaN)).length : ℚ))

/-- `Series.std()` (skipna, ddof = 1): the sample standard deviation of the
non-NaN entries; NaN when fewer than two remain. -/
def pandasStd (sqrt : ℚ → ℚ) (xs : List FV) : FV :=
  if (xs.filter (fun a => !a.isNaN)).length < 2 then FV.nan
  else
    FV.sqrtFV sqrt
      (FV.div
        (sumFV ((xs.filter (fun a => !a.isNaN)).map (fun x =>
          FV.mul (FV.sub x (pandasMean xs)) (FV.sub x (pandasMean xs)))))
        (FV.fin (((xs.filter (fun a => !a.isNaN)).length - 1 : ℕ) : ℚ)))

/-- `Series.max()` (skipna; the embedded columns have no NaN): NaN on an
empty series, else the maximum. -/
def pandasMax (xs : List ℚ) : FV :=
  match xs with
  | [] => FV.nan
  | x :: rest => FV.fin (rest.foldl max x)

/-- `Series.min()`. -/
def pandasMin (xs : List ℚ) : FV :=
  match xs with
  | [] => FV.nan
  | x :: rest => FV.fin (rest.foldl min x)

/-- `Series.mean()` on a NaN-free rational column. -/
def pandasMeanQ (xs : List ℚ) : FV :=
  match xs with
  | [] => FV.nan
  | _ :: _ => FV.fin (xs.sum / (xs.length : ℚ))

/-- The dictionary returned by `calculate_metrics`. -/
structure Metrics where
  dailyReturns : FV
  volatility : FV
  highestPrice : FV
  lowestPrice : FV
  averageVolume : FV
deriving DecidableEq, Repr

/-- `calculate_metrics(df)`: per-step percentage changes of `Close` reduced
to mean (`'Daily Returns'`) and sample standard deviation (`'Volatility'`),
both ×100, plus the High max, Low min, and Volume mean.  `sqrt` abstracts
the numeric square root inside `Series.std()`. -/
def calculate_metrics (sqrt : ℚ → ℚ) (df : DataFrame) : Metrics :=
  let pct := pctChangeFV df.Close
  { dailyReturns := FV.mul (pandasMean pct) (FV.fin 100)
    volatility := FV.mul (pandasStd sqrt pct) (FV.fin 100)
    highestPrice := pandasMax df.High
    lowestPrice := pandasMin df.Low
    averageVolume := pandasMeanQ df.Volume }

/-! ## Magnitude formatter (`format_large_number`) -/

/-- Round to the nearest integer, ties to even (the rounding Python's
fixed-point formatting applies). -/
def roundHalfEven (q : ℚ) : ℤ :=
  let f := ⌊q⌋
  let r := q - (f : ℚ)
  if r < 1 / 2 then f
  else if 1 / 2 < r then f + 1
  else if f % 2 = 0 then f else f + 1

/-- Left-pad with `'0'` to two characters. -/
def twoDigits (n : ℕ) : String :=
  if n < 10 then "0" ++ toString n else toString n

/-- Python's `f"{q:.2f}"` on an exact value: fixed-point with exactly two
fraction digits (sign taken from the value, as Python prints it). -/
def pyFixed2 (q : ℚ) : String :=
  let n := (roundHalfEven (|q| * 100)).toNat
  let sign := if q < 0 then "-" else ""
  sign ++ toString (n / 100) ++ "." ++ twoDigits (n % 100)

/-- `format_large_number(num)`: scale by the largest applicable unit among
B / M / K on the signed value, two fraction digits. -/
def format_large_number (num : ℚ) : String :=
  if 1000000000 ≤ num then pyFixed2 (num / 1000000000) ++ "B"
  else if 1000000 ≤ num then pyFixed2 (num / 1000000) ++ "M"
  else if 1000 ≤ num then pyFixed2 (num / 1000) ++ "K"
  else pyFixed2 num

/-- The per-step percentage changes of the well-defined steps only: those
whose baseline close is nonzero (what the spec's exclusion policy keeps). -/
def wellDefinedPcts (xs : List ℚ) : List ℚ :=
  (xs.zip xs.tail).filterMap
    (fun p => if p.1 = 0 then none else some ((p.2 - p.1) / p.1))

/-- The spec-side mean over the well-defined steps: undefined when there is
none. -/
def specMeanPct (l : List ℚ) : Option ℚ :=
  if l = [] then none else some (l.sum / (l.length : ℚ))

/-- The spec-side sample standard deviation over the well-defined steps:
undefined when fewer than two exist (`sqrt` again abstracts the numeric
square root). -/
def specStdPct (sqrt : ℚ → ℚ) (l : List ℚ) : Option ℚ :=
  if l.length < 2 then none
  else some (sqrt ((l.map (fun x =>
    (x - l.sum / (l.length : ℚ)) * (x - l.sum / (l.length : ℚ)))).sum /
      ((l.length - 1 : ℕ) : ℚ)))

/-- A 50-bar constant frame used as the concrete input of witnesses. -/
def dfFifty : DataFrame :=
  { index := List.replicate 50 0, Open := List.replicate 50 1,
    High := List.replicate 50 1, Low := List.replicate 50 1,
    Close := List.replicate 50 1, Volume := List.replicate 50 1 }

/-- A 15-bar frame with constant close 1 (a flat window: both the trailing
average gain and the trailing average loss vanish). -/
def dfFlat : DataFrame :=
  { index := List.replicate 15 0, Open := List.replicate 15 1,
    High := List.replicate 15 1, Low := List.replicate 15 1,
    Close := [1, 1, 1, 1, 1, 1, 1, 1, 1, 1, 1, 1, 1, 1, 1],
    Volume := List.replicate 15 1 }

/-- A 15-bar frame with strictly increasing closes (a gain-only window:
the average loss vanishes while the average gain is positive). -/
def dfUp : DataFrame :=
  { index := List.replicate 15 0, Open := List.replicate 15 1,
    High := List.replicate 15 1, Low := List.replicate 15 1,
    Close := [1, 2, 3, 4, 5, 6, 7, 8, 9, 10, 11, 12, 13, 14, 15],
    Volume := List.replicate 15 1 }

/-- A one-bar frame used as the concrete input of the C8 witness. -/
def dfOneBar : DataFrame :=
  { index := [0], Open := [5], High := [7], Low := [3],
    Close := [5], Volume := [11] }

/-- A frame whose close series starts at zero and then rises: the first
step divides by a zero baseline with a nonzero numerator. -/
def dfZeroBase : DataFrame :=
  { index := [0, 1, 2], Open := [0, 1, 2], High := [0, 1, 2],
    Low := [0, 1, 2], Close := [0, 1, 2], Volume := [1, 1, 1] }

/-- A two-bar frame with nonzero baseline used by the C4 witness. -/
def dfTwoBar : DataFrame :=
  { index := [0, 1], Open := [1, 2], High := [1, 2], Low := [1, 2],
    Close := [1, 2], Volume := [1, 1] }

/-! ## Helper lemmas -/

@[simp] theorem FV.add_fin (a b : ℚ) : FV.add (FV.fin a) (FV.fin b) = FV.fin (a + b) := rfl

@[simp] theorem FV.sub_fin (a b : ℚ) : FV.sub (FV.fin a) (FV.fin b) = FV.fin (a - b) := by
  simp [FV.sub, FV.neg, FV.add, sub_eq_add_neg]

@[simp] theorem FV.mul_fin (a b : ℚ) : FV.mul (FV.fin a) (FV.fin b) = FV.fin (a * b) := rfl

@[simp] theorem FV.isNaN_fin (a : ℚ) : FV.isNaN (FV.fin a) = false := rfl

theorem FV.div_fin_of_ne (a b : ℚ) (hb : b ≠ 0) :
    FV.div (FV.fin a) (FV.fin b) = FV.fin (a / b) := by
  simp [FV.div, hb]


theorem getElem?_map_range_of_lt {α : Type} (f : ℕ → α) {n i : ℕ} (h : i < n) :
    ((List.range n).map f)[i]? = some (f i) := by
  simp [List.getElem?_map, List.getElem?_range, h]

theorem getElem?_map_range_some {α : Type} {f : ℕ → α} {n i : ℕ} {y : α}
    (h : ((List.range n).map f)[i]? = some y) : i < n ∧ y = f i := by
  rw [List.getElem?_map] at h
  rcases Nat.lt_or_ge i n with hlt | hge
  · rw [List.getElem?_range hlt] at h
    exact ⟨hlt, by simpa using h.symm⟩
  · rw [List.getElem?_eq_none_iff.2 (by simpa using hge)] at h
    simp at h

theorem take_drop_eq_map_range {α : Type} [Inhabited α] (xs : List α) (a w : ℕ)
    (h : a + w ≤ xs.length) :
    (xs.drop a).take w = (List.range w).map (fun k => xs.getD (a + k) default) := by
  apply List.ext_getElem
  · simp; omega
  · intro j h1 h2
    simp only [List.getElem_take, List.getElem_drop, List.getElem_map, List.getElem_range]
    rw [List.getD_eq_getElem]

theorem diffFV_length (xs : List ℚ) : (diffFV xs).length = xs.length := by
  cases xs with
  | nil => rfl
  | cons x rest => simp [diffFV]

theorem gainsOf_length (xs : List ℚ) : (gainsOf xs).length = xs.length := by
  simp [gainsOf, diffFV_length]

theorem lossesOf_length (xs : List ℚ) : (lossesOf xs).length = xs.length := by
  simp [lossesOf, diffFV_length]

theorem gainsOf_nonneg (xs : List ℚ) : ∀ x ∈ gainsOf xs, 0 ≤ x := by
  intro x hx
  simp only [gainsOf, List.mem_map] at hx
  obtain ⟨d, _, rfl⟩ := hx
  cases d with
  | fin q =>
      dsimp only
      split
      · linarith
      · exact le_refl 0
  | nan => exact le_refl 0
  | pinf => exact le_refl 0
  | ninf => exact le_refl 0

theorem lossesOf_nonneg (xs : List ℚ) : ∀ x ∈ lossesOf xs, 0 ≤ x := by
  intro x hx
  simp only [lossesOf, List.mem_map] at hx
  obtain ⟨d, _, rfl⟩ := hx
  cases d with
  | fin q =>
      dsimp only
      split
      · linarith
      · exact le_refl 0
  | nan => exact le_refl 0
  | pinf => exact le_refl 0
  | ninf => exact le_refl 0

theorem rollingMean_nonneg {w : ℕ} {xs : List ℚ} {i : ℕ} {m : ℚ}
    (hxs : ∀ x ∈ xs, 0 ≤ x) (h : rollingMean w xs i = some m) : 0 ≤ m := by
  unfold rollingMean at h
  split at h
  · obtain rfl := Option.some.inj h
    apply div_nonneg
    · exact List.sum_nonneg fun x hx =>
        hxs x (List.mem_of_mem_drop (List.mem_of_mem_take hx))
    · positivity
  · exact absurd h (by simp)

theorem rollingMean_some_lt {w : ℕ} {xs : List ℚ} {i : ℕ} {m : ℚ}
    (h : rollingMean w xs i = some m) : i < xs.length := by
  unfold rollingMean at h
  split at h
  · omega
  next hc => exact absurd h (by simp)

/-! ## Claims -/

/-- **C9** — `format_large_number` compares the signed value against the
1e9 / 1e6 / 1e3 thresholds in order, divides by the chosen unit, renders
with exactly two fraction digits and the unit suffix, and in particular
`format(-500) = "-500.00"`, `format(0) = "0.00"`, `format(999) = "999.00"`,
`format(1000) = "1.00K"`, `format(1500000) = "1.50M"`,
`format(2300000000) = "2.30B"`.  (Totality — "always returns a string,
never failing" — is immediate: the embedding is a total function.) -/
theorem c9_format_large_number (num : ℚ) :
    (1000000000 ≤ num →
      format_large_number num = pyFixed2 (num / 1000000000) ++ "B") ∧
    (1000000 ≤ num → num < 1000000000 →
      format_large_number num = pyFixed2 (num / 1000000) ++ "M") ∧
    (1000 ≤ num → num < 1000000 →
      format_large_number num = pyFixed2 (num / 1000) ++ "K") ∧
    (num < 1000 → format_large_number num = pyFixed2 num) ∧
    format_large_number (-500) = "-500.00" ∧
    format_large_number 0 = "0.00" ∧
    format_large_number 999 = "999.00" ∧
    format_large_number 1000 = "1.00K" ∧
    format_large_number 1500000 = "1.50M" ∧
    format_large_number 2300000000 = "2.30B" := by
  refine ⟨fun h1 => ?_, fun h1 h2 => ?_, fun h1 h2 => ?_, fun h1 => ?_,
    ?_, ?_, ?_, ?_, ?_, ?_⟩
  · unfold format_large_number
    rw [if_pos h1]
  · unfold format_large_number
    rw [if_neg (by linarith), if_pos h1]
  · unfold format_large_number
    rw [if_neg (by linarith), if_neg (by linarith), if_pos h1]
  · unfold format_large_number
    rw [if_neg (by linarith), if_neg (by linarith), if_neg (by linarith)]
  · have h : |(-500 : ℚ)| * 100 = 50000 := by
      rw [abs_of_nonpos] <;> norm_num
    norm_num [format_large_number, pyFixed2, roundHalfEven, twoDigits, h]
    decide
  · norm_num [format_large_number, pyFixed2, roundHalfEven, twoDigits]
    decide
  · have h : |(999 : ℚ)| * 100 = 99900 := by
      rw [abs_of_nonneg] <;> norm_num
    norm_num [format_large_number, pyFixed2, roundHalfEven, twoDigits, h]
    decide
  · have h : |(1000 : ℚ) / 1000| * 100 = 100 := by
      rw [abs_of_nonneg] <;> norm_num
    norm_num [format_large_number, pyFixed2, roundHalfEven, twoDigits, h]
    decide
  · have h : |(3 : ℚ) / 2| * 100 = 150 := by
      rw [abs_of_nonneg] <;> norm_num
    norm_num [format_large_number, pyFixed2, roundHalfEven, twoDigits, h]
    decide
  · have h : |(23 : ℚ) / 10| * 100 = 230 := by
      rw [abs_of_nonneg] <;> norm_num
    norm_num [format_large_number, pyFixed2, roundHalfEven, twoDigits, h]
    decide

/-- Witness for C9: the four threshold branches applied at concrete inputs. -/
theorem c9_format_large_number_witness :
    format_large_number 2000000000 = pyFixed2 (2000000000 / 1000000000) ++ "B" ∧
    format_large_number 2000000 = pyFixed2 (2000000 / 1000000) ++ "M" ∧
    format_large_number 2000 = pyFixed2 (2000 / 1000) ++ "K" ∧
    format_large_number 500 = pyFixed2 500 :=
  ⟨(c9_format_large_number 2000000000).1 (by norm_num),
   (c9_format_large_number 2000000).2.1 (by norm_num) (by norm_num),
   (c9_format_large_number 2000).2.2.1 (by norm_num) (by norm_num),
   (c9_format_large_number 500).2.2.2.1 (by norm_num)⟩

/-- **C10** — with `show_indicators` omitted (`None`) every toggle defaults
to false and the figure holds exactly two traces: the OHLC candlestick and
the Volume bars, no indicator traces and no reference lines, for every
input series. -/
theorem c10_default_chart (sqrt : ℚ → ℚ) (df : DataFrame) :
    create_price_chart sqrt df none =
      [ChartItem.candlestick .ohlc df.index df.Open df.High df.Low df.Close 1,
       ChartItem.bar .volume df.Volume 2] := rfl

/-- Counterexample for C5: on a one-bar frame with no indicator columns,
the frame visible to the caller after `calculate_technical_indicators`
(Python's in-place column assignment) differs from the input frame — the
call has inserted the indicator columns into it. -/
theorem c5_counterexample :
    calculate_technical_indicators id
        { index := [0], Open := [1], High := [1], Low := [1],
          Close := [1], Volume := [1] } ≠
      { index := [0], Open := [1], High := [1], Low := [1],
        Close := [1], Volume := [1] } := by
  intro h
  have h2 := congrArg DataFrame.RSI h
  simp [calculate_technical_indicators] at h2

/-- **C5 (amended)** — `calculate_technical_indicators` does mutate the
caller-visible frame (it inserts the nine indicator columns in place, see
the counterexample), but it leaves the `Open`, `High`, `Low`, `Close` and
`Volume` columns and the index exactly as they were, for every input. -/
theorem c5_ohlcv_preserved (sqrt : ℚ → ℚ) (df : DataFrame) :
    (calculate_technical_indicators sqrt df).index = df.index ∧
    (calculate_technical_indicators sqrt df).Open = df.Open ∧
    (calculate_technical_indicators sqrt df).High = df.High ∧
    (calculate_technical_indicators sqrt df).Low = df.Low ∧
    (calculate_technical_indicators sqrt df).Close = df.Close ∧
    (calculate_technical_indicators sqrt df).Volume = df.Volume :=
  ⟨rfl, rfl, rfl, rfl, rfl, rfl⟩

/-- **C2** — every trace group whose toggle is false is absent from the
chart: `macd = false` means no MACD/Signal/Histogram trace, `rsi = false`
means no RSI trace and no 70/30 reference lines, and likewise for `sma`,
`ema` and `bollinger`, for every input series. -/
theorem c2_toggle_absence (sqrt : ℚ → ℚ) (df : DataFrame) (s : ShowIndicators) :
    (s.macd = false → (create_price_chart sqrt df (some s)).any isMACDGroup = false) ∧
    (s.rsi = false → (create_price_chart sqrt df (some s)).any isRSIGroup = false) ∧
    (s.sma = false → (create_price_chart sqrt df (some s)).any isSMAGroup = false) ∧
    (s.ema = false → (create_price_chart sqrt df (some s)).any isEMAGroup = false) ∧
    (s.bollinger = false →
      (create_price_chart sqrt df (some s)).any isBollingerGroup = false) := by
  obtain ⟨a, b, c, d, e⟩ := s
  cases a <;> cases b <;> cases c <;> cases d <;> cases e <;>
    refine ⟨fun h => ?_, fun h => ?_, fun h => ?_, fun h => ?_, fun h => ?_⟩ <;>
    first
      | rfl
      | exact absurd h (by simp)

/-- Witness for C2: the all-false configuration on a concrete frame. -/
theorem c2_toggle_absence_witness :
    ((create_price_chart id
        { index := [0], Open := [1], High := [1], Low := [1],
          Close := [1], Volume := [1] }
        (some ⟨false, false, false, false, false⟩)).any isMACDGroup = false) ∧
    ((create_price_chart id
        { index := [0], Open := [1], High := [1], Low := [1],
          Close := [1], Volume := [1] }
        (some ⟨false, false, false, false, false⟩)).any isRSIGroup = false) ∧
    ((create_price_chart id
        { index := [0], Open := [1], High := [1], Low := [1],
          Close := [1], Volume := [1] }
        (some ⟨false, false, false, false, false⟩)).any isSMAGroup = false) ∧
    ((create_price_chart id
        { index := [0], Open := [1], High := [1], Low := [1],
          Close := [1], Volume := [1] }
        (some ⟨false, false, false, false, false⟩)).any isEMAGroup = false) ∧
    ((create_price_chart id
        { index := [0], Open := [1], High := [1], Low := [1],
          Close := [1], Volume := [1] }
        (some ⟨false, false, false, false, false⟩)).any isBollingerGroup = false) := by
  obtain h := c2_toggle_absence id
    { index := [0], Open := [1], High := [1], Low := [1],
      Close := [1], Volume := [1] }
    ⟨false, false, false, false, false⟩
  exact ⟨h.1 rfl, h.2.1 rfl, h.2.2.1 rfl, h.2.2.2.1 rfl, h.2.2.2.2 rfl⟩

/-- **C3** — for a series of at least 50 bars, `SMA_20[i]` is, for every
`i ≥ 19` (0-based), exactly the arithmetic mean of `close[i-19..i]`, and for
every `i < 19` it is missing (`none`) — never zero. -/
theorem c3_sma20 (sqrt : ℚ → ℚ) (df : DataFrame) (h50 : 50 ≤ df.Close.length)
    (i : ℕ) (hi : i < df.Close.length) :
    ∃ col, (calculate_technical_indicators sqrt df).SMA_20 = some col ∧
      (19 ≤ i → col[i]? = some (some
        (((List.range 20).map (fun k => df.Close.getD (i - 19 + k) 0)).sum / 20))) ∧
      (i < 19 → col[i]? = some none) := by
  refine ⟨_, rfl, fun h19 => ?_, fun h19 => ?_⟩
  · rw [getElem?_map_range_of_lt _ hi]
    unfold rollingMean
    rw [if_pos ⟨by omega, hi⟩]
    have he : i + 1 - 20 = i - 19 := by omega
    rw [he, take_drop_eq_map_range df.Close (i - 19) 20 (by omega)]
    have hd : (default : ℚ) = 0 := rfl
    rw [hd]
    norm_num
  · rw [getElem?_map_range_of_lt _ hi]
    unfold rollingMean
    rw [if_neg (by omega)]

/-- Witness for C3 at the 50-bar frame, position 19. -/
theorem c3_sma20_witness :
    ∃ col, (calculate_technical_indicators id dfFifty).SMA_20 = some col ∧
      (19 ≤ 19 → col[19]? = some (some
        (((List.range 20).map (fun k => dfFifty.Close.getD (19 - 19 + k) 0)).sum / 20))) ∧
      (19 < 19 → col[19]? = some none) :=
  c3_sma20 id dfFifty (by simp [dfFifty]) 19 (by simp [dfFifty])

/-- **C7** — wherever the three Bollinger columns are defined,
`BB_upper[i] − BB_middle[i] = BB_middle[i] − BB_lower[i]` exactly, the
middle band being SMA(20) and the offset twice the trailing 20-sample
sample standard deviation (any value of the square root, parameter `sqrt`). -/
theorem c7_bollinger_symmetry (sqrt : ℚ → ℚ) (df : DataFrame) (i : ℕ) (u m l : ℚ)
    (hu : ((calculate_technical_indicators sqrt df).BB_upper.getD [])[i]? = some (some u))
    (hm : ((calculate_technical_indicators sqrt df).BB_middle.getD [])[i]? = some (some m))
    (hl : ((calculate_technical_indicators sqrt df).BB_lower.getD [])[i]? = some (some l)) :
    u - m = m - l := by
  rw [show (calculate_technical_indicators sqrt df).BB_upper
      = some ((List.range df.Close.length).map (bbUpperAt sqrt df.Close)) from rfl] at hu
  rw [show (calculate_technical_indicators sqrt df).BB_middle
      = some ((List.range df.Close.length).map (rollingMean 20 df.Close)) from rfl] at hm
  rw [show (calculate_technical_indicators sqrt df).BB_lower
      = some ((List.range df.Close.length).map (bbLowerAt sqrt df.Close)) from rfl] at hl
  simp only [Option.getD_some] at hu hm hl
  obtain ⟨hin, hu2⟩ := getElem?_map_range_some hu
  obtain ⟨-, hm2⟩ := getElem?_map_range_some hm
  obtain ⟨-, hl2⟩ := getElem?_map_range_some hl
  unfold bbUpperAt at hu2
  unfold bbLowerAt at hl2
  cases hR : rollingMean 20 df.Close i with
  | none => rw [hR] at hu2; simp at hu2
  | some mq =>
    cases hV : rollingVar 20 df.Close i with
    | none => rw [hR, hV] at hu2; simp at hu2
    | some v =>
      rw [hR, hV] at hu2 hl2
      rw [hR] at hm2
      simp only [Option.some.injEq] at hu2 hm2 hl2
      subst hu2 hm2 hl2
      ring

/-- Witness for C7: the constant 50-bar frame at position 19, where the
window variance is 0 and all three bands equal 1. -/
theorem c7_bollinger_symmetry_witness : (1 : ℚ) - 1 = 1 - 1 := by
  have hu : ((calculate_technical_indicators id dfFifty).BB_upper.getD [])[19]?
      = some (some (1 : ℚ)) := by
    rw [show (calculate_technical_indicators id dfFifty).BB_upper
        = some ((List.range dfFifty.Close.length).map (bbUpperAt id dfFifty.Close)) from rfl]
    rw [Option.getD_some, getElem?_map_range_of_lt _ (by simp [dfFifty])]
    norm_num [dfFifty, bbUpperAt, rollingMean, rollingVar, List.take_replicate,
      List.sum_replicate, List.map_replicate]
  have hm : ((calculate_technical_indicators id dfFifty).BB_middle.getD [])[19]?
      = some (some (1 : ℚ)) := by
    rw [show (calculate_technical_indicators id dfFifty).BB_middle
        = some ((List.range dfFifty.Close.length).map (rollingMean 20 dfFifty.Close)) from rfl]
    rw [Option.getD_some, getElem?_map_range_of_lt _ (by simp [dfFifty])]
    norm_num [dfFifty, rollingMean, List.take_replicate, List.sum_replicate]
  have hl : ((calculate_technical_indicators id dfFifty).BB_lower.getD [])[19]?
      = some (some (1 : ℚ)) := by
    rw [show (calculate_technical_indicators id dfFifty).BB_lower
        = some ((List.range dfFifty.Close.length).map (bbLowerAt id dfFifty.Close)) from rfl]
    rw [Option.getD_some, getElem?_map_range_of_lt _ (by simp [dfFifty])]
    norm_num [dfFifty, bbLowerAt, rollingMean, rollingVar, List.take_replicate,
      List.sum_replicate, List.map_replicate]
  exact c7_bollinger_symmetry id dfFifty 19 1 1 1 hu hm hl

theorem FV.add_fin_pinf (a : ℚ) : FV.add (FV.fin a) FV.pinf = FV.pinf := rfl

theorem FV.div_fin_pinf (a : ℚ) : FV.div (FV.fin a) FV.pinf = FV.fin 0 := rfl

theorem FV.add_fin_nan (a : ℚ) : FV.add (FV.fin a) FV.nan = FV.nan := rfl

theorem FV.div_fin_nan (a : ℚ) : FV.div (FV.fin a) FV.nan = FV.nan := rfl

theorem FV.sub_fin_nan (a : ℚ) : FV.sub (FV.fin a) FV.nan = FV.nan := rfl

theorem FV.div_fin_zero (a : ℚ) :
    FV.div (FV.fin a) (FV.fin 0) =
      if a = 0 then FV.nan else if 0 < a then FV.pinf else FV.ninf := by
  simp [FV.div]

theorem rsi_col_at (sqrt : ℚ → ℚ) (df : DataFrame) (i : ℕ)
    (hin : i < df.Close.length) :
    ((calculate_technical_indicators sqrt df).RSI.getD [])[i]?
      = some (rsiAt df.Close i) := by
  rw [show (calculate_technical_indicators sqrt df).RSI
      = some ((List.range df.Close.length).map (rsiAt df.Close)) from rfl]
  rw [Option.getD_some, getElem?_map_range_of_lt _ hin]

/-- Counterexample for C1: on the flat 15-bar series the 14-sample average
loss at position 13 is zero, and so is the average gain; the RSI entry there
is NaN (undefined), not 100 — pandas' `0/0` is NaN. -/
theorem c1_counterexample :
    rollingMean 14 (lossesOf dfFlat.Close) 13 = some 0 ∧
    rollingMean 14 (gainsOf dfFlat.Close) 13 = some 0 ∧
    ((calculate_technical_indicators id dfFlat).RSI.getD [])[13]? = some FV.nan ∧
    FV.nan ≠ FV.fin 100 := by
  have hl : rollingMean 14 (lossesOf dfFlat.Close) 13 = some 0 := by
    norm_num [dfFlat, lossesOf, diffFV, rollingMean]
  have hg : rollingMean 14 (gainsOf dfFlat.Close) 13 = some 0 := by
    norm_num [dfFlat, gainsOf, diffFV, rollingMean]
  refine ⟨hl, hg, ?_, by decide⟩
  rw [rsi_col_at id dfFlat 13 (by norm_num [dfFlat])]
  simp only [Option.some.injEq]
  unfold rsiAt
  rw [hg, hl]
  norm_num [FV.div_fin_zero, FV.add_fin_nan, FV.div_fin_nan, FV.sub_fin_nan]

/-- **C1 (amended)** — at every position where the 14-sample trailing
average loss is zero, the RSI value is 100 when the trailing average gain
is positive (a gain-only window, `RS = +∞`), but it is NaN (undefined)
when the average gain is also zero (`RS = 0/0`); it is never an uncaught
arithmetic fault. -/
theorem c1_rsi_zero_loss (sqrt : ℚ → ℚ) (df : DataFrame) (i : ℕ) (g : ℚ)
    (hl : rollingMean 14 (lossesOf df.Close) i = some 0)
    (hg : rollingMean 14 (gainsOf df.Close) i = some g) :
    ((calculate_technical_indicators sqrt df).RSI.getD [])[i]?
      = some (if 0 < g then FV.fin 100 else FV.nan) := by
  have hin : i < df.Close.length := by
    have h2 := rollingMean_some_lt hl
    rwa [lossesOf_length] at h2
  rw [rsi_col_at sqrt df i hin]
  simp only [Option.some.injEq]
  unfold rsiAt
  rw [hg, hl]
  dsimp only
  have hgnn : 0 ≤ g := rollingMean_nonneg (gainsOf_nonneg df.Close) hg
  rcases eq_or_lt_of_le hgnn with hg0 | hgpos
  · rw [if_neg (by rw [← hg0]; exact lt_irrefl 0)]
    rw [show FV.div (FV.fin g) (FV.fin 0) = FV.nan by
      rw [FV.div_fin_zero, if_pos hg0.symm]]
    rw [FV.add_fin_nan, FV.div_fin_nan, FV.sub_fin_nan]
  · rw [if_pos hgpos]
    rw [show FV.div (FV.fin g) (FV.fin 0) = FV.pinf by
      rw [FV.div_fin_zero, if_neg (ne_of_gt hgpos), if_pos hgpos]]
    rw [FV.add_fin_pinf, FV.div_fin_pinf]
    norm_num [FV.sub_fin]

/-- Witness for C1 on the strictly increasing 15-bar series: at position 13
the average loss is 0, the average gain is 13/14 > 0, and RSI is 100. -/
theorem c1_rsi_zero_loss_witness :
    ((calculate_technical_indicators id dfUp).RSI.getD [])[13]?
      = some (if 0 < (13 / 14 : ℚ) then FV.fin 100 else FV.nan) :=
  c1_rsi_zero_loss id dfUp 13 (13 / 14)
    (by norm_num [dfUp, lossesOf, diffFV, rollingMean])
    (by norm_num [dfUp, gainsOf, diffFV, rollingMean])

/-- **C6** — wherever the RSI column is defined (not NaN), its value is a
finite number in the closed interval `[0, 100]`, for every input series. -/
theorem c6_rsi_range (sqrt : ℚ → ℚ) (df : DataFrame) (i : ℕ) (v : FV)
    (h : ((calculate_technical_indicators sqrt df).RSI.getD [])[i]? = some v)
    (hdef : v ≠ FV.nan) :
    ∃ x, v = FV.fin x ∧ 0 ≤ x ∧ x ≤ 100 := by
  rw [show (calculate_technical_indicators sqrt df).RSI
      = some ((List.range df.Close.length).map (rsiAt df.Close)) from rfl,
    Option.getD_some] at h
  obtain ⟨hin, rfl⟩ := getElem?_map_range_some h
  unfold rsiAt at hdef ⊢
  cases hg : rollingMean 14 (gainsOf df.Close) i with
  | none =>
      rw [hg] at hdef
      exact absurd rfl hdef
  | some g =>
    cases hL : rollingMean 14 (lossesOf df.Close) i with
    | none =>
        rw [hg, hL] at hdef
        exact absurd rfl hdef
    | some l =>
      rw [hg, hL] at hdef
      dsimp only at hdef ⊢
      have hgnn : 0 ≤ g := rollingMean_nonneg (gainsOf_nonneg df.Close) hg
      have hlnn : 0 ≤ l := rollingMean_nonneg (lossesOf_nonneg df.Close) hL
      rcases eq_or_lt_of_le hlnn with hl0 | hlpos
      · rcases eq_or_lt_of_le hgnn with hg0 | hgpos
        · exfalso
          apply hdef
          rw [← hl0, show FV.div (FV.fin g) (FV.fin 0) = FV.nan by
            rw [FV.div_fin_zero, if_pos hg0.symm]]
          rw [FV.add_fin_nan, FV.div_fin_nan, FV.sub_fin_nan]
        · refine ⟨100, ?_, by norm_num, le_refl 100⟩
          rw [← hl0, show FV.div (FV.fin g) (FV.fin 0) = FV.pinf by
            rw [FV.div_fin_zero, if_neg (ne_of_gt hgpos), if_pos hgpos]]
          rw [FV.add_fin_pinf, FV.div_fin_pinf]
          norm_num [FV.sub_fin]
      · have hlne : l ≠ 0 := ne_of_gt hlpos
        have hrs : 0 ≤ g / l := div_nonneg hgnn (le_of_lt hlpos)
        have h1 : (0 : ℚ) < 1 + g / l := by linarith
        refine ⟨100 - 100 / (1 + g / l), ?_, ?_, ?_⟩
        · rw [FV.div_fin_of_ne _ _ hlne, FV.add_fin,
            FV.div_fin_of_ne _ _ (ne_of_gt h1), FV.sub_fin]
        · have hle : 100 / (1 + g / l) ≤ 100 :=
            div_le_self (by norm_num) (by linarith)
          linarith
        · have hge : 0 ≤ 100 / (1 + g / l) := by positivity
          linarith

/-- Witness for C6 on the strictly increasing 15-bar series at position 13,
where RSI is 100. -/
theorem c6_rsi_range_witness :
    ∃ x, FV.fin 100 = FV.fin x ∧ 0 ≤ x ∧ x ≤ 100 := by
  have hl : rollingMean 14 (lossesOf dfUp.Close) 13 = some 0 := by
    norm_num [dfUp, lossesOf, diffFV, rollingMean]
  have hg : rollingMean 14 (gainsOf dfUp.Close) 13 = some (13 / 14) := by
    norm_num [dfUp, gainsOf, diffFV, rollingMean]
  have h : ((calculate_technical_indicators id dfUp).RSI.getD [])[13]?
      = some (FV.fin 100) := by
    rw [rsi_col_at id dfUp 13 (by norm_num [dfUp])]
    simp only [Option.some.injEq]
    unfold rsiAt
    rw [hg, hl]
    dsimp only
    rw [show FV.div (FV.fin (13 / 14)) (FV.fin 0) = FV.pinf by
      rw [FV.div_fin_zero, if_neg (by norm_num), if_pos (by norm_num)]]
    rw [FV.add_fin_pinf, FV.div_fin_pinf]
    norm_num [FV.sub_fin]
  exact c6_rsi_range id dfUp 13 (FV.fin 100) h (by decide)

theorem sumFV_map_fin (l : List ℚ) : sumFV (l.map FV.fin) = FV.fin l.sum := by
  induction l with
  | nil => rfl
  | cons x t ih =>
      simp only [List.map_cons, sumFV, List.foldr_cons]
      rw [show List.foldr FV.add (FV.fin 0) (t.map FV.fin)
          = sumFV (t.map FV.fin) from rfl, ih, FV.add_fin, List.sum_cons]

theorem filter_pct_wellDef (ps : List (ℚ × ℚ)) (H : ∀ p ∈ ps, p.1 = 0 → p.2 = 0) :
    (ps.map (fun p => FV.div (FV.fin (p.2 - p.1)) (FV.fin p.1))).filter
        (fun a => !a.isNaN)
      = (ps.filterMap
          (fun p => if p.1 = 0 then none else some ((p.2 - p.1) / p.1))).map
        FV.fin := by
  induction ps with
  | nil => rfl
  | cons p t ih =>
    have Hp := H p (List.mem_cons_self p t)
    have Ht : ∀ q ∈ t, q.1 = 0 → q.2 = 0 :=
      fun q hq => H q (List.mem_cons_of_mem p hq)
    by_cases h0 : p.1 = 0
    · have h2 : p.2 = 0 := Hp h0
      simp only [List.map_cons, List.filter_cons, List.filterMap_cons, h0,
        if_pos, h2]
      rw [show FV.div (FV.fin (0 - 0)) (FV.fin 0) = FV.nan by
        norm_num [FV.div_fin_zero]]
      simpa using ih Ht
    · simp only [List.map_cons, List.filter_cons, List.filterMap_cons, h0,
        if_neg, FV.div_fin_of_ne _ _ h0]
      simpa using ih Ht

theorem pandasMean_fin (xs : List FV) (l : List ℚ)
    (hf : xs.filter (fun a => !a.isNaN) = l.map FV.fin) :
    pandasMean xs = if l = [] then FV.nan
      else FV.fin (l.sum / (l.length : ℚ)) := by
  unfold pandasMean
  rw [hf, sumFV_map_fin, List.length_map]
  by_cases h : l = []
  · subst h
    norm_num [FV.div_fin_zero]
  · rw [if_neg h, FV.div_fin_of_ne]
    exact Nat.cast_ne_zero.2 (fun hl => h (List.length_eq_zero.1 hl))

theorem pandasStd_fin (sqrt : ℚ → ℚ) (xs : List FV) (l : List ℚ)
    (hf : xs.filter (fun a => !a.isNaN) = l.map FV.fin) :
    pandasStd sqrt xs = if l.length < 2 then FV.nan
      else FV.fin (sqrt ((l.map (fun x =>
        (x - l.sum / (l.length : ℚ)) * (x - l.sum / (l.length : ℚ)))).sum /
          ((l.length - 1 : ℕ) : ℚ))) := by
  unfold pandasStd
  rw [hf, List.length_map]
  by_cases h2 : l.length < 2
  · rw [if_pos h2, if_pos h2]
  · rw [if_neg h2, if_neg h2]
    have hl0 : l ≠ [] := by
      intro h
      subst h
      simp at h2
    rw [pandasMean_fin xs l hf, if_neg hl0]
    rw [List.map_map]
    have hcomp : (fun x => FV.mul (FV.sub x (FV.fin (l.sum / (l.length : ℚ))))
          (FV.sub x (FV.fin (l.sum / (l.length : ℚ))))) ∘ FV.fin
        = FV.fin ∘ (fun x => (x - l.sum / (l.length : ℚ)) *
          (x - l.sum / (l.length : ℚ))) := by
      funext x
      simp [FV.sub_fin, FV.mul_fin]
    rw [hcomp, ← List.map_map, sumFV_map_fin]
    have hlen1 : ((l.length - 1 : ℕ) : ℚ) ≠ 0 :=
      Nat.cast_ne_zero.2 (by omega)
    rw [FV.div_fin_of_ne _ _ hlen1]
    rfl

theorem pct_short (xs : List ℚ) (h : xs.length < 2) :
    (pctChangeFV xs).filter (fun a => !a.isNaN) = [] := by
  match xs, h with
  | [], _ => rfl
  | [a], _ => rfl

/-- **C8** — with fewer than 2 bars both return-based metrics (Daily
Returns, Volatility) are undefined (NaN), while a single-bar series still
yields its bar's high as Highest Price, its low as Lowest Price, and its
volume as Average Volume. -/
theorem c8_metrics_short (sqrt : ℚ → ℚ) (df : DataFrame) :
    (df.Close.length < 2 →
      (calculate_metrics sqrt df).dailyReturns = FV.nan ∧
      (calculate_metrics sqrt df).volatility = FV.nan) ∧
    (∀ hb lb vb, df.High = [hb] → df.Low = [lb] → df.Volume = [vb] →
      (calculate_metrics sqrt df).highestPrice = FV.fin hb ∧
      (calculate_metrics sqrt df).lowestPrice = FV.fin lb ∧
      (calculate_metrics sqrt df).averageVolume = FV.fin vb) := by
  constructor
  · intro h
    have hfil := pct_short df.Close h
    constructor
    · show FV.mul (pandasMean (pctChangeFV df.Close)) (FV.fin 100) = FV.nan
      rw [pandasMean_fin _ [] (by simpa using hfil)]
      rw [if_pos rfl]
      rfl
    · show FV.mul (pandasStd sqrt (pctChangeFV df.Close)) (FV.fin 100) = FV.nan
      rw [pandasStd_fin sqrt _ [] (by simpa using hfil)]
      rw [if_pos (by norm_num)]
      rfl
  · intro hb lb vb hH hL hV
    refine ⟨?_, ?_, ?_⟩
    · show pandasMax df.High = FV.fin hb
      rw [hH]
      rfl
    · show pandasMin df.Low = FV.fin lb
      rw [hL]
      rfl
    · show pandasMeanQ df.Volume = FV.fin vb
      rw [hV]
      norm_num [pandasMeanQ]

/-- Witness for C8 on the one-bar frame. -/
theorem c8_metrics_short_witness :
    (calculate_metrics id dfOneBar).dailyReturns = FV.nan ∧
    (calculate_metrics id dfOneBar).volatility = FV.nan ∧
    (calculate_metrics id dfOneBar).highestPrice = FV.fin 7 ∧
    (calculate_metrics id dfOneBar).lowestPrice = FV.fin 3 ∧
    (calculate_metrics id dfOneBar).averageVolume = FV.fin 11 := by
  obtain ⟨h1, h2⟩ := c8_metrics_short id dfOneBar
  obtain ⟨ha, hb⟩ := h1 (by decide)
  obtain ⟨hc, hd, he⟩ := h2 7 3 11 rfl rfl rfl
  exact ⟨ha, hb, hc, hd, he⟩

/-- Counterexample for C4: on closes `[0, 1, 2]` the zero-baseline step
yields `+∞` (not NaN), pandas' mean does not skip it, and `Daily Returns`
comes out `+∞` — whereas the reduction over only the well-defined steps is
`1` (i.e. `100` as a percentage).  The step is not excluded. -/
theorem c4_counterexample :
    (calculate_metrics id dfZeroBase).dailyReturns = FV.pinf ∧
    specMeanPct (wellDefinedPcts dfZeroBase.Close) = some 1 ∧
    FV.pinf ≠ FV.fin (1 * 100) := by
  refine ⟨?_, ?_, by decide⟩
  · show FV.mul (pandasMean (pctChangeFV dfZeroBase.Close)) (FV.fin 100) = FV.pinf
    norm_num [dfZeroBase, pctChangeFV, pandasMean, sumFV, FV.div, FV.add,
      FV.mul, FV.isNaN, List.filter]
  · have hw : wellDefinedPcts dfZeroBase.Close = [1] := by
      norm_num [dfZeroBase, wellDefinedPcts, List.filterMap_cons]
    rw [hw]
    norm_num [specMeanPct]

/-- **C4 (amended)** — a step whose baseline close is zero produces NaN and
is excluded from both reductions only when the step's current close is also
zero (`0/0`); under that proviso (every zero-baseline step also has a zero
current close) `Daily Returns` and `Volatility` equal the mean and sample
standard deviation over only the well-defined steps.  When a zero-baseline
step has a nonzero current close the quotient is ±∞, which pandas does not
skip, and the mean becomes infinite (see the counterexample). -/
theorem c4_metrics_zero_baseline (sqrt : ℚ → ℚ) (df : DataFrame)
    (H : ∀ p ∈ df.Close.zip df.Close.tail, p.1 = 0 → p.2 = 0) :
    ((calculate_metrics sqrt df).dailyReturns =
      match specMeanPct (wellDefinedPcts df.Close) with
      | none => FV.nan
      | some q => FV.fin (q * 100)) ∧
    ((calculate_metrics sqrt df).volatility =
      match specStdPct sqrt (wellDefinedPcts df.Close) with
      | none => FV.nan
      | some q => FV.fin (q * 100)) := by
  have hfil : (pctChangeFV df.Close).filter (fun a => !a.isNaN)
      = (wellDefinedPcts df.Close).map FV.fin := by
    unfold pctChangeFV wellDefinedPcts
    cases hc : df.Close with
    | nil => rfl
    | cons a t =>
        rw [List.filter_cons]
        rw [if_neg (by simp [FV.isNaN])]
        exact filter_pct_wellDef _ (by rw [← hc]; exact H)
  constructor
  · show FV.mul (pandasMean (pctChangeFV df.Close)) (FV.fin 100) = _
    rw [pandasMean_fin _ _ hfil]
    unfold specMeanPct
    by_cases h : wellDefinedPcts df.Close = []
    · rw [if_pos h, if_pos h]
      rfl
    · rw [if_neg h, if_neg h, FV.mul_fin]
  · show FV.mul (pandasStd sqrt (pctChangeFV df.Close)) (FV.fin 100) = _
    rw [pandasStd_fin sqrt _ _ hfil]
    unfold specStdPct
    by_cases h2 : (wellDefinedPcts df.Close).length < 2
    · rw [if_pos h2, if_pos h2]
      rfl
    · rw [if_neg h2, if_neg h2, FV.mul_fin]

/-- Witness for C4 on closes `[1, 2]` (no zero baseline at all). -/
theorem c4_metrics_zero_baseline_witness :
    ((calculate_metrics id dfTwoBar).dailyReturns =
      match specMeanPct (wellDefinedPcts dfTwoBar.Close) with
      | none => FV.nan
      | some q => FV.fin (q * 100)) ∧
    ((calculate_metrics id dfTwoBar).volatility =
      match specStdPct id (wellDefinedPcts dfTwoBar.Close) with
      | none => FV.nan
      | some q => FV.fin (q * 100)) := by
  apply c4_metrics_zero_baseline
  intro p hp h0
  simp [dfTwoBar] at hp
  subst hp
  norm_num at h0
